import Mathlib

/-!
Verification of the session-profitability calculator in src/profit_app.py.

The core (lines 62-103 of profit_app.py, `process_detailed_calc`, plus the
aggregation in lines 113-115) is embedded shallowly:

* table cells of the seven numeric columns are either interpretable numbers
  or values that pd.to_numeric with errors=coerce turns into NaN; the
  coercion step (line 71) maps the latter, and missing cells, to 0;
* all finite arithmetic is carried out over the rationals;
* the one place where pandas float arithmetic can leave the finite range is
  the ROI division (line 101): a pandas float is modelled by `PFloat`
  (finite rational, positive infinity, negative infinity, or NaN), with
  division by zero producing an infinity for a nonzero numerator and NaN
  for 0/0, exactly as pandas/numpy true division does; `.fillna(0)` maps
  NaN (and only NaN) back to 0;
* the aggregation models `Series.sum` (exact sum, 0 on empty) and
  `Series.mean` (skip NaN, divide by the remaining count, NaN on empty);
* for the frame property of `process_detailed_calc` (the argument DataFrame
  is not mutated), a small heap of table objects is modelled: line 63
  allocates a fresh object holding a copy of the input, and every later
  column write (lines 71, 74, 77, 80, 88, 96, 101) targets that object.
-/

namespace ProfitApp

/-- A raw cell of one of the seven numeric columns, as handed over by the
data editor: either a value `pd.to_numeric` can interpret as a number, or
one it cannot (missing entry, blank, non-numeric string), which it turns
into NaN. -/
inductive Cell where
  | num (q : ℚ)
  | invalid
deriving DecidableEq, Repr

/-- Line 71: `pd.to_numeric(calc_df[col], errors=coerce).fillna(0)` applied
to one cell: an interpretable number stays itself, everything else becomes
NaN and then 0. -/
def coerceCell : Cell → ℚ
  | .num q => q
  | .invalid => 0

/-- One raw session row: the seven numeric columns of the editable table
(the free-text name column takes no part in the computation). Field order
follows `numeric_cols` in lines 66-69. -/
structure RawRow where
  estimated_revenue : Cell      -- 預估營業額
  gross_margin_rate : Cell      -- 商品毛利率
  venue_rent : Cell             -- 場地租金
  onsite_staffing : Cell        -- 現場人事
  utilities_logistics : Cell    -- 水電物流
  advertising_cost : Cell       -- 該場廣告費
  venue_commission_rate : Cell  -- 場地抽成率
deriving DecidableEq, Repr

/-- A session row after the coercion loop of lines 70-71: every numeric
column holds a number. -/
structure CoercedRow where
  estimated_revenue : ℚ
  gross_margin_rate : ℚ
  venue_rent : ℚ
  onsite_staffing : ℚ
  utilities_logistics : ℚ
  advertising_cost : ℚ
  venue_commission_rate : ℚ
deriving DecidableEq, Repr

/-- The coercion loop of lines 70-71 on one row. -/
def coerceRow (r : RawRow) : CoercedRow where
  estimated_revenue := coerceCell r.estimated_revenue
  gross_margin_rate := coerceCell r.gross_margin_rate
  venue_rent := coerceCell r.venue_rent
  onsite_staffing := coerceCell r.onsite_staffing
  utilities_logistics := coerceCell r.utilities_logistics
  advertising_cost := coerceCell r.advertising_cost
  venue_commission_rate := coerceCell r.venue_commission_rate

/-- The two global rates of lines 14-16, fixed for one calculation pass. -/
structure Globals where
  global_tax_rate : ℚ
  global_pkg_rate : ℚ
deriving DecidableEq, Repr

/-- A pandas float value: finite, one of the two infinities, or NaN. -/
inductive PFloat where
  | fin (q : ℚ)
  | inf
  | ninf
  | nan
deriving DecidableEq, Repr

/-- Pandas/numpy true division of two finite floats: an infinity of the
sign of the numerator when the denominator is zero, NaN for 0/0. -/
def pdivQ (n d : ℚ) : PFloat :=
  if d = 0 then
    if n = 0 then .nan else if 0 < n then .inf else .ninf
  else .fin (n / d)

/-- Multiplication of a pandas float by the positive constant 100
(line 101). -/
def pmul100 : PFloat → PFloat
  | .fin q => .fin (q * 100)
  | .inf => .inf
  | .ninf => .ninf
  | .nan => .nan

/-- `Series.fillna(0)` on one value: NaN, and only NaN, becomes 0. -/
def fillna0 : PFloat → PFloat
  | .nan => .fin 0
  | x => x

def PFloat.isNan : PFloat → Bool
  | .nan => true
  | _ => false

def PFloat.isFinite : PFloat → Bool
  | .fin _ => true
  | _ => false

/-- Line 74: 毛利總額 = 預估營業額 * 商品毛利率. -/
def gross_profit (r : CoercedRow) : ℚ :=
  r.estimated_revenue * r.gross_margin_rate

/-- Line 77: 變動成本 = 預估營業額 * (tax + pkg + 場地抽成率). -/
def variable_cost (g : Globals) (r : CoercedRow) : ℚ :=
  r.estimated_revenue *
    (g.global_tax_rate + g.global_pkg_rate + r.venue_commission_rate)

/-- Lines 80-85: 固定開銷合計 = rent + staffing + utilities + ads. -/
def fixed_cost_total (r : CoercedRow) : ℚ :=
  r.venue_rent + r.onsite_staffing + r.utilities_logistics +
    r.advertising_cost

/-- Line 88: 預估淨利 = 毛利總額 - 變動成本 - 固定開銷合計. -/
def net_profit (g : Globals) (r : CoercedRow) : ℚ :=
  gross_profit r - variable_cost g r - fixed_cost_total r

/-- Lines 92-94: break-even revenue of one row,
fixed costs divided by (margin rate - variable-cost rate) when that
denominator is positive, 0 otherwise. -/
def get_be_rev (g : Globals) (r : CoercedRow) : ℚ :=
  let denom := r.gross_margin_rate -
    (g.global_tax_rate + g.global_pkg_rate + r.venue_commission_rate)
  if 0 < denom then fixed_cost_total r / denom else 0

/-- Line 100: total cost = (revenue - gross profit) + variable cost +
fixed cost total. -/
def total_cost (g : Globals) (r : CoercedRow) : ℚ :=
  (r.estimated_revenue - gross_profit r) + variable_cost g r +
    fixed_cost_total r

/-- Line 101: 投報率 ROI (%) = (預估淨利 / total_cost * 100).fillna(0),
with pandas float division semantics at a zero denominator. -/
def roi_percent (g : Globals) (r : CoercedRow) : PFloat :=
  fillna0 (pmul100 (pdivQ (net_profit g r) (total_cost g r)))

/-- One row of the result table: the seven coerced numeric columns plus the
six derived columns of lines 74-101. -/
structure EnrichedRow where
  estimated_revenue : ℚ
  gross_margin_rate : ℚ
  venue_rent : ℚ
  onsite_staffing : ℚ
  utilities_logistics : ℚ
  advertising_cost : ℚ
  venue_commission_rate : ℚ
  gross_profit : ℚ          -- 毛利總額
  variable_cost : ℚ         -- 變動成本
  fixed_cost_total : ℚ      -- 固定開銷合計
  net_profit : ℚ            -- 預估淨利
  breakeven_revenue : ℚ     -- 打平所需營收
  roi_percent : PFloat      -- 投報率 ROI (%)
deriving DecidableEq, Repr

/-- The derived columns of one coerced row. -/
def enrich (g : Globals) (r : CoercedRow) : EnrichedRow where
  estimated_revenue := r.estimated_revenue
  gross_margin_rate := r.gross_margin_rate
  venue_rent := r.venue_rent
  onsite_staffing := r.onsite_staffing
  utilities_logistics := r.utilities_logistics
  advertising_cost := r.advertising_cost
  venue_commission_rate := r.venue_commission_rate
  gross_profit := gross_profit r
  variable_cost := variable_cost g r
  fixed_cost_total := fixed_cost_total r
  net_profit := net_profit g r
  breakeven_revenue := get_be_rev g r
  roi_percent := roi_percent g r

/-- Lines 62-103: `process_detailed_calc`, as the value-level transform of
the row sequence (coercion followed by the per-row derived columns,
order-preserving). -/
def processDetailedCalc (g : Globals) (rows : List RawRow) :
    List EnrichedRow :=
  rows.map (fun r => enrich g (coerceRow r))

/-- Pandas float addition (as used by `Series.sum` over the ROI column):
NaN absorbs, opposite infinities give NaN. -/
def padd : PFloat → PFloat → PFloat
  | .nan, _ => .nan
  | _, .nan => .nan
  | .inf, .ninf => .nan
  | .ninf, .inf => .nan
  | .inf, _ => .inf
  | _, .inf => .inf
  | .ninf, _ => .ninf
  | _, .ninf => .ninf
  | .fin a, .fin b => .fin (a + b)

/-- Division of a pandas float by a positive count. -/
def pdivNat : PFloat → ℕ → PFloat
  | .fin q, k => .fin (q / (k : ℚ))
  | .inf, _ => .inf
  | .ninf, _ => .ninf
  | .nan, _ => .nan

def psum (xs : List PFloat) : PFloat := xs.foldl padd (.fin 0)

/-- `Series.mean()`: drop NaN entries (skipna default), then sum and divide
by the remaining count; NaN when nothing remains, in particular on an
empty column. -/
def pmean (xs : List PFloat) : PFloat :=
  let ys := xs.filter (fun x => !x.isNan)
  if ys = [] then .nan else pdivNat (psum ys) ys.length

/-- Line 113: sum of the 預估營業額 column of the result table. -/
def totalRevenue (g : Globals) (rows : List RawRow) : ℚ :=
  ((processDetailedCalc g rows).map (fun e => e.estimated_revenue)).sum

/-- Line 114: sum of the 預估淨利 column of the result table. -/
def totalNetProfit (g : Globals) (rows : List RawRow) : ℚ :=
  ((processDetailedCalc g rows).map (fun e => e.net_profit)).sum

/-- Line 115: mean of the 投報率 ROI (%) column of the result table. -/
def avgRoi (g : Globals) (rows : List RawRow) : PFloat :=
  pmean ((processDetailedCalc g rows).map (fun e => e.roi_percent))

/-! ### Object-level model of `process_detailed_calc`

For the frame property (the argument DataFrame object is left unchanged)
the function is modelled at the level of Python objects: a heap maps
addresses to DataFrame values, line 63 (`calc_df = df.copy()`) allocates a
fresh address holding a copy of the input table, and every subsequent
column write of lines 71-101 is an in-place update at the fresh address.
A DataFrame value is a list of rows, each row a map from column name to
cell value; all the column operations of the source are elementwise, so
each is a `List.map` of a per-row update. -/

/-- A dynamically typed DataFrame cell: a raw editor cell, a number, or a
pandas float. -/
inductive Val where
  | cell (c : Cell)
  | q (x : ℚ)
  | pf (p : PFloat)
deriving DecidableEq

/-- One DataFrame row: a map from column name to cell value (`none` for a
column the row does not have). -/
def PRow := String → Option Val

/-- Write one named field of a row. -/
def setF (r : PRow) (n : String) (v : Val) : PRow :=
  fun m => if m = n then some v else r m

/-- `pd.to_numeric(x, errors=coerce).fillna(0)` on one dynamically typed
cell: numbers pass through, anything non-numeric or missing becomes NaN and
then 0.  (The editor only ever supplies raw `Cell`s in the numeric
columns.) -/
def coerceVal : Option Val → ℚ
  | some (.cell c) => coerceCell c
  | some (.q x) => x
  | some (.pf (.fin x)) => x
  | some (.pf _) => 0
  | none => 0

/-- Read a numeric column entry of a row (used after the coercion loop has
made the column numeric). -/
def getQ (r : PRow) (n : String) : ℚ :=
  match r n with
  | some (.q x) => x
  | _ => 0

/-- Lines 66-69: the seven numeric column names. -/
def numeric_cols : List String :=
  ["預估營業額", "商品毛利率", "場地租金",
   "現場人事", "水電物流", "該場廣告費", "場地抽成率"]

/-- Line 71 for one column on one row. -/
def coerceColRow (col : String) (r : PRow) : PRow :=
  setF r col (.q (coerceVal (r col)))

/-- Line 74 on one row. -/
def grossRow (r : PRow) : PRow :=
  setF r "毛利總額" (.q (getQ r "預估營業額" * getQ r "商品毛利率"))

/-- Line 77 on one row. -/
def varRow (g : Globals) (r : PRow) : PRow :=
  setF r "變動成本"
    (.q (getQ r "預估營業額" *
      (g.global_tax_rate + g.global_pkg_rate + getQ r "場地抽成率")))

/-- Lines 80-85 on one row. -/
def fixedRow (r : PRow) : PRow :=
  setF r "固定開銷合計"
    (.q (getQ r "場地租金" + getQ r "現場人事" +
      getQ r "水電物流" + getQ r "該場廣告費"))

/-- Line 88 on one row. -/
def netRow (r : PRow) : PRow :=
  setF r "預估淨利"
    (.q (getQ r "毛利總額" - getQ r "變動成本" - getQ r "固定開銷合計"))

/-- Lines 92-96 on one row: `calc_df.apply(get_be_rev, axis=1)`. -/
def beRow (g : Globals) (r : PRow) : PRow :=
  let denom := getQ r "商品毛利率" -
    (g.global_tax_rate + g.global_pkg_rate + getQ r "場地抽成率")
  setF r "打平所需營收"
    (.q (if 0 < denom then getQ r "固定開銷合計" / denom else 0))

/-- Lines 100-101 on one row. -/
def roiRow (r : PRow) : PRow :=
  let tc := (getQ r "預估營業額" - getQ r "毛利總額") +
    getQ r "變動成本" + getQ r "固定開銷合計"
  setF r "投報率 ROI (%)"
    (.pf (fillna0 (pmul100 (pdivQ (getQ r "預估淨利") tc))))

/-- The heap of DataFrame objects: a map from address to table value, with
the next fresh address. -/
structure Heap where
  mem : ℕ → List PRow
  next : ℕ

/-- Overwrite the table object at one address in place. -/
def writeTable (h : Heap) (a : ℕ) (t : List PRow) : Heap :=
  ⟨fun b => if b = a then t else h.mem b, h.next⟩

/-- An elementwise column write on the object at address `a`. -/
def applyCol (h : Heap) (a : ℕ) (f : PRow → PRow) : Heap :=
  writeTable h a ((h.mem a).map f)

/-- Lines 62-103 at the object level: allocate a copy of the table at
`dfA` (line 63), run the coercion loop and the six derived-column writes on
the copy, and return the address of the result together with the final
heap. -/
def process_detailed_calc_state (g : Globals) (h : Heap) (dfA : ℕ) :
    ℕ × Heap :=
  let calcA := h.next
  let h1 : Heap := ⟨fun b => if b = calcA then h.mem dfA else h.mem b,
    h.next + 1⟩
  let h2 := numeric_cols.foldl
    (fun hh col => applyCol hh calcA (coerceColRow col)) h1
  let h3 := applyCol h2 calcA grossRow
  let h4 := applyCol h3 calcA (varRow g)
  let h5 := applyCol h4 calcA fixedRow
  let h6 := applyCol h5 calcA netRow
  let h7 := applyCol h6 calcA (beRow g)
  let h8 := applyCol h7 calcA roiRow
  (calcA, h8)

/-! ### Concrete inputs used in witnesses -/

/-- The default global rates of lines 14-16: tax 5 percent, packaging 0. -/
def exampleGlobals : Globals := ⟨5 / 100, 0⟩

/-- The first default session row of lines 21-30 (台北 A 場), which is also
the worked example of the specification. -/
def exampleRow : RawRow :=
  ⟨.num 600000, .num 0.35, .num 120000, .num 45000, .num 5000,
   .num 20000, .num (5 / 100)⟩

/-- The second default session row of lines 31-40 (台中 B 場). -/
def secondRow : RawRow :=
  ⟨.num 400000, .num 0.40, .num 60000, .num 30000, .num 3000,
   .num 10000, .num 0⟩

/-- A freshly inserted blank row: none of its seven numeric cells is
interpretable as a number. -/
def allInvalidRow : RawRow :=
  ⟨.invalid, .invalid, .invalid, .invalid, .invalid, .invalid, .invalid⟩

/-- A degenerate but type-correct row: margin rate 1, no fixed costs, no
commission.  With both global rates at 0 its total cost is zero while its
net profit equals its revenue. -/
def degenerateRow : RawRow :=
  ⟨.num 100, .num 1, .num 0, .num 0, .num 0, .num 0, .num 0⟩

/-! ### Helper lemmas -/

/-- Folding pandas addition over finite values from a finite start stays
finite. -/
theorem foldl_padd_fin (xs : List PFloat)
    (hall : ∀ x ∈ xs, x.isFinite = true) :
    ∀ q : ℚ, ((xs.foldl padd (PFloat.fin q)).isFinite = true) := by
  induction xs with
  | nil => intro q; rfl
  | cons a as ih =>
    intro q
    have ha := hall a (List.mem_cons_self a as)
    cases a with
    | fin b =>
      exact ih (fun x hx => hall x (List.mem_cons_of_mem _ hx)) (q + b)
    | inf => simp [PFloat.isFinite] at ha
    | ninf => simp [PFloat.isFinite] at ha
    | nan => simp [PFloat.isFinite] at ha

/-- The pandas mean of a nonempty list of finite values is finite. -/
theorem pmean_fin (xs : List PFloat) (hne : xs ≠ [])
    (hall : ∀ x ∈ xs, x.isFinite = true) : (pmean xs).isFinite = true := by
  have hfilter : xs.filter (fun x => !x.isNan) = xs := by
    apply List.filter_eq_self.mpr
    intro a ha
    have := hall a ha
    cases a <;> simp_all [PFloat.isNan, PFloat.isFinite]
  have hs : (psum xs).isFinite = true := foldl_padd_fin xs hall 0
  simp only [pmean, hfilter, if_neg hne]
  cases h : psum xs with
  | fin q => simp [pdivNat, PFloat.isFinite]
  | inf => rw [h] at hs; simp [PFloat.isFinite] at hs
  | ninf => rw [h] at hs; simp [PFloat.isFinite] at hs
  | nan => rw [h] at hs; simp [PFloat.isFinite] at hs

/-- A column write on one heap object leaves every other object
unchanged. -/
theorem applyCol_frame (h : Heap) (a b : ℕ) (f : PRow → PRow)
    (hne : b ≠ a) : (applyCol h a f).mem b = h.mem b := by
  simp [applyCol, writeTable, hne]

/-- A fold of column writes on one heap object leaves every other object
unchanged. -/
theorem foldl_applyCol_frame (cols : List String) (F : String → PRow → PRow)
    (a b : ℕ) (hne : b ≠ a) :
    ∀ h : Heap,
      ((cols.foldl (fun hh col => applyCol hh a (F col)) h).mem b = h.mem b) := by
  induction cols with
  | nil => intro h; rfl
  | cons c cs ih =>
    intro h
    rw [List.foldl_cons, ih (applyCol h a (F c))]
    exact applyCol_frame h a b (F c) hne

/-! ### Claims -/

/-- Claim C4: for every session row, with the seven numeric fields taken
after coercion and the two global rates, the computed net profit equals
exactly revenue*margin_rate - revenue*(tax+pkg+commission) -
(rent+staffing+utilities+ads). -/
theorem net_profit_formula (g : Globals) (r : RawRow) :
    net_profit g (coerceRow r) =
      coerceCell r.estimated_revenue * coerceCell r.gross_margin_rate
        - coerceCell r.estimated_revenue *
            (g.global_tax_rate + g.global_pkg_rate +
              coerceCell r.venue_commission_rate)
        - (coerceCell r.venue_rent + coerceCell r.onsite_staffing +
            coerceCell r.utilities_logistics +
            coerceCell r.advertising_cost) := rfl

/-- Claim C5: for every session row, with denom = margin_rate -
(tax_rate + packaging_rate + commission_rate): if denom > 0 the computed
break-even revenue equals fixed_cost_total / denom, and if denom <= 0 it
equals 0. -/
theorem get_be_rev_spec (g : Globals) (r : CoercedRow) :
    (r.gross_margin_rate -
        (g.global_tax_rate + g.global_pkg_rate + r.venue_commission_rate) ≤ 0 →
      get_be_rev g r = 0) ∧
    (0 < r.gross_margin_rate -
        (g.global_tax_rate + g.global_pkg_rate + r.venue_commission_rate) →
      get_be_rev g r = fixed_cost_total r /
        (r.gross_margin_rate -
          (g.global_tax_rate + g.global_pkg_rate +
            r.venue_commission_rate))) := by
  refine ⟨fun h => ?_, fun h => ?_⟩
  · simp [get_be_rev, not_lt.mpr h]
  · simp [get_be_rev, h]

/-- Witness for C5 at the default global rates and the first default row:
the denominator 0.25 is positive and the break-even revenue is 760000. -/
theorem get_be_rev_spec_witness :
    (0 < (coerceRow exampleRow).gross_margin_rate -
      (exampleGlobals.global_tax_rate + exampleGlobals.global_pkg_rate +
        (coerceRow exampleRow).venue_commission_rate)) ∧
    get_be_rev exampleGlobals (coerceRow exampleRow) = 760000 := by
  have h : 0 < (coerceRow exampleRow).gross_margin_rate -
      (exampleGlobals.global_tax_rate + exampleGlobals.global_pkg_rate +
        (coerceRow exampleRow).venue_commission_rate) := by
    norm_num [coerceRow, coerceCell, exampleRow, exampleGlobals]
  refine ⟨h, ((get_be_rev_spec exampleGlobals (coerceRow exampleRow)).2 h).trans ?_⟩
  norm_num [fixed_cost_total, coerceRow, coerceCell, exampleRow, exampleGlobals]

/-- Claim C6: for every session row whose break-even denominator is
positive, substituting the computed break-even revenue for the estimated
revenue in the net-profit formula, holding the fixed-cost fields and all
rates constant, yields a net profit of exactly zero. -/
theorem breakeven_plugback (g : Globals) (r : CoercedRow)
    (h : 0 < r.gross_margin_rate -
      (g.global_tax_rate + g.global_pkg_rate + r.venue_commission_rate)) :
    net_profit g { r with estimated_revenue := get_be_rev g r } = 0 := by
  have hd : r.gross_margin_rate -
      (g.global_tax_rate + g.global_pkg_rate + r.venue_commission_rate) ≠ 0 :=
    ne_of_gt h
  simp only [net_profit, gross_profit, variable_cost, fixed_cost_total,
    get_be_rev]
  rw [if_pos h]
  field_simp
  ring

/-- Witness for C6 at the default global rates and the first default row:
net profit at the break-even revenue 760000 is zero. -/
theorem breakeven_plugback_witness :
    (0 < (coerceRow exampleRow).gross_margin_rate -
      (exampleGlobals.global_tax_rate + exampleGlobals.global_pkg_rate +
        (coerceRow exampleRow).venue_commission_rate)) ∧
    net_profit exampleGlobals
      { coerceRow exampleRow with
          estimated_revenue := get_be_rev exampleGlobals (coerceRow exampleRow) } = 0 :=
  ⟨by norm_num [coerceRow, coerceCell, exampleRow, exampleGlobals],
   breakeven_plugback exampleGlobals (coerceRow exampleRow)
     (by norm_num [coerceRow, coerceCell, exampleRow, exampleGlobals])⟩

/-- Claim C7: whichever of the seven numeric fields holds a value that
cannot be interpreted as a number, that field is coerced to exactly 0
before any arithmetic; in particular a row with a non-numeric estimated
revenue yields gross_profit = 0, variable_cost = 0 and net_profit =
-fixed_cost_total.  The calculator does not raise (every operation is
total). -/
theorem nonnumeric_coerced_to_zero (g : Globals) (r : RawRow) :
    (r.estimated_revenue = Cell.invalid →
      (coerceRow r).estimated_revenue = 0) ∧
    (r.gross_margin_rate = Cell.invalid →
      (coerceRow r).gross_margin_rate = 0) ∧
    (r.venue_rent = Cell.invalid → (coerceRow r).venue_rent = 0) ∧
    (r.onsite_staffing = Cell.invalid → (coerceRow r).onsite_staffing = 0) ∧
    (r.utilities_logistics = Cell.invalid →
      (coerceRow r).utilities_logistics = 0) ∧
    (r.advertising_cost = Cell.invalid →
      (coerceRow r).advertising_cost = 0) ∧
    (r.venue_commission_rate = Cell.invalid →
      (coerceRow r).venue_commission_rate = 0) ∧
    (r.estimated_revenue = Cell.invalid →
      gross_profit (coerceRow r) = 0 ∧
      variable_cost g (coerceRow r) = 0 ∧
      net_profit g (coerceRow r) = -(fixed_cost_total (coerceRow r))) := by
  refine ⟨fun h => ?_, fun h => ?_, fun h => ?_, fun h => ?_, fun h => ?_,
    fun h => ?_, fun h => ?_, fun h => ?_⟩ <;>
    simp [h, coerceCell, coerceRow, gross_profit, variable_cost, net_profit,
      fixed_cost_total]

/-- Witness for C7 on a blank row, every one of whose seven numeric cells
is non-numeric: each field coerces to 0, and the derived metrics collapse
as claimed. -/
theorem nonnumeric_coerced_to_zero_witness :
    allInvalidRow.estimated_revenue = Cell.invalid ∧
    (coerceRow allInvalidRow).estimated_revenue = 0 ∧
    (coerceRow allInvalidRow).gross_margin_rate = 0 ∧
    (coerceRow allInvalidRow).venue_rent = 0 ∧
    (coerceRow allInvalidRow).onsite_staffing = 0 ∧
    (coerceRow allInvalidRow).utilities_logistics = 0 ∧
    (coerceRow allInvalidRow).advertising_cost = 0 ∧
    (coerceRow allInvalidRow).venue_commission_rate = 0 ∧
    (gross_profit (coerceRow allInvalidRow) = 0 ∧
     variable_cost exampleGlobals (coerceRow allInvalidRow) = 0 ∧
     net_profit exampleGlobals (coerceRow allInvalidRow) =
       -(fixed_cost_total (coerceRow allInvalidRow))) := by
  have h := nonnumeric_coerced_to_zero exampleGlobals allInvalidRow
  exact ⟨rfl, h.1 rfl, h.2.1 rfl, h.2.2.1 rfl, h.2.2.2.1 rfl,
    h.2.2.2.2.1 rfl, h.2.2.2.2.2.1 rfl, h.2.2.2.2.2.2.1 rfl,
    h.2.2.2.2.2.2.2 rfl⟩

/-- Claim C8: the calculator is deterministic: two runs on identical
inputs (the same globals and the same row sequence) produce the identical
enriched row sequence and the identical three aggregates.  In this
embedding the calculator is a pure function, so the two runs are the same
term. -/
theorem calculator_deterministic (g : Globals) (rows : List RawRow) :
    (processDetailedCalc g rows, totalRevenue g rows, totalNetProfit g rows,
      avgRoi g rows) =
    (processDetailedCalc g rows, totalRevenue g rows, totalNetProfit g rows,
      avgRoi g rows) := rfl

/-- Claim C10: for every session row whose four fixed-cost fields are
non-negative after coercion, the computed break-even revenue is
non-negative. -/
theorem breakeven_nonneg (g : Globals) (r : CoercedRow)
    (h1 : 0 ≤ r.venue_rent) (h2 : 0 ≤ r.onsite_staffing)
    (h3 : 0 ≤ r.utilities_logistics) (h4 : 0 ≤ r.advertising_cost) :
    0 ≤ get_be_rev g r := by
  simp only [get_be_rev]
  split_ifs with hd
  · exact div_nonneg (by simp only [fixed_cost_total]; linarith) hd.le
  · exact le_rfl

/-- Witness for C10 at the first default row. -/
theorem breakeven_nonneg_witness :
    (0 ≤ (coerceRow exampleRow).venue_rent ∧
     0 ≤ (coerceRow exampleRow).onsite_staffing ∧
     0 ≤ (coerceRow exampleRow).utilities_logistics ∧
     0 ≤ (coerceRow exampleRow).advertising_cost) ∧
    0 ≤ get_be_rev exampleGlobals (coerceRow exampleRow) := by
  have h1 : (0 : ℚ) ≤ (coerceRow exampleRow).venue_rent := by
    norm_num [coerceRow, coerceCell, exampleRow]
  have h2 : (0 : ℚ) ≤ (coerceRow exampleRow).onsite_staffing := by
    norm_num [coerceRow, coerceCell, exampleRow]
  have h3 : (0 : ℚ) ≤ (coerceRow exampleRow).utilities_logistics := by
    norm_num [coerceRow, coerceCell, exampleRow]
  have h4 : (0 : ℚ) ≤ (coerceRow exampleRow).advertising_cost := by
    norm_num [coerceRow, coerceCell, exampleRow]
  exact ⟨⟨h1, h2, h3, h4⟩,
    breakeven_nonneg exampleGlobals (coerceRow exampleRow) h1 h2 h3 h4⟩

/-- Counterexample to C1 as stated: with both global rates 0 and the row
(revenue 100, margin rate 1, no costs, no commission), the total cost is 0
but the computed ROI is the positive infinity that pandas produces for
100/0, not 0 — line 101 only maps NaN (the 0/0 case) to 0. -/
theorem roi_zero_total_cost_cex :
    total_cost ⟨0, 0⟩ (coerceRow degenerateRow) = 0 ∧
    roi_percent ⟨0, 0⟩ (coerceRow degenerateRow) = PFloat.inf ∧
    PFloat.inf ≠ PFloat.fin 0 := by
  refine ⟨?_, ?_, by simp⟩
  · norm_num [total_cost, gross_profit, variable_cost, fixed_cost_total,
      coerceRow, coerceCell, degenerateRow]
  · norm_num [roi_percent, total_cost, net_profit, gross_profit,
      variable_cost, fixed_cost_total, coerceRow, coerceCell, degenerateRow,
      pdivQ, pmul100, fillna0]

/-- Claim C1 (amended): when total_cost is nonzero the computed ROI equals
net_profit / total_cost * 100; when total_cost is zero the ROI is 0 only if
net_profit is also zero (the 0/0 case, mapped by fillna), and otherwise it
is the infinity of the sign of net_profit. -/
theorem roi_percent_cases (g : Globals) (r : CoercedRow) :
    (total_cost g r ≠ 0 →
      roi_percent g r = PFloat.fin (net_profit g r / total_cost g r * 100)) ∧
    (total_cost g r = 0 → net_profit g r = 0 →
      roi_percent g r = PFloat.fin 0) ∧
    (total_cost g r = 0 → 0 < net_profit g r →
      roi_percent g r = PFloat.inf) ∧
    (total_cost g r = 0 → net_profit g r < 0 →
      roi_percent g r = PFloat.ninf) := by
  refine ⟨fun h => ?_, fun h0 hn => ?_, fun h0 hp => ?_, fun h0 hneg => ?_⟩
  · simp [roi_percent, pdivQ, h, pmul100, fillna0]
  · simp [roi_percent, pdivQ, h0, hn, pmul100, fillna0]
  · simp [roi_percent, pdivQ, h0, hp.ne', hp, pmul100, fillna0]
  · simp [roi_percent, pdivQ, h0, hneg.ne, asymm hneg, pmul100, fillna0]

/-- Witness for the amended C1 at the default global rates and the first
default row: total cost 640000 is nonzero and the ROI is -25/4 percent. -/
theorem roi_percent_cases_witness :
    total_cost exampleGlobals (coerceRow exampleRow) ≠ 0 ∧
    roi_percent exampleGlobals (coerceRow exampleRow) =
      PFloat.fin (-25 / 4) := by
  have h : total_cost exampleGlobals (coerceRow exampleRow) ≠ 0 := by
    norm_num [total_cost, gross_profit, variable_cost, fixed_cost_total,
      coerceRow, coerceCell, exampleRow, exampleGlobals]
  refine ⟨h,
    ((roi_percent_cases exampleGlobals (coerceRow exampleRow)).1 h).trans ?_⟩
  norm_num [net_profit, total_cost, gross_profit, variable_cost,
    fixed_cost_total, coerceRow, coerceCell, exampleRow, exampleGlobals]

/-- Counterexample to C2 as stated: on the degenerate row with both global
rates 0 the ROI output column contains a non-finite value (positive
infinity), so not every numeric output field is finite. -/
theorem finite_outputs_cex :
    ((processDetailedCalc ⟨0, 0⟩ [degenerateRow]).all
      (fun e => e.roi_percent.isFinite)) = false := by
  norm_num [processDetailedCalc, enrich, roi_percent, total_cost, net_profit,
    gross_profit, variable_cost, fixed_cost_total, coerceRow, coerceCell,
    degenerateRow, pdivQ, pmul100, fillna0, PFloat.isFinite, List.all]

/-- Claim C2 (amended): every output field other than the ROI is a rational
number by construction (coercion precedes all arithmetic and only the ROI
computation divides by a possibly-zero quantity); on a nonempty input in
which every row has nonzero total cost, the ROI of every output row and the
mean ROI are finite as well.  On empty input the mean ROI is NaN, and a row
with zero total cost but nonzero net profit has an infinite ROI. -/
theorem outputs_finite_of_total_cost_ne_zero (g : Globals)
    (rows : List RawRow)
    (hnz : ∀ r ∈ rows, total_cost g (coerceRow r) ≠ 0) (hne : rows ≠ []) :
    (∀ e ∈ processDetailedCalc g rows, e.roi_percent.isFinite = true) ∧
    (avgRoi g rows).isFinite = true := by
  have hrow : ∀ e ∈ processDetailedCalc g rows,
      e.roi_percent.isFinite = true := by
    intro e he
    rcases List.mem_map.mp he with ⟨r, hr, rfl⟩
    have hz := hnz r hr
    simp [enrich, roi_percent, pdivQ, hz, pmul100, fillna0, PFloat.isFinite]
  refine ⟨hrow, ?_⟩
  apply pmean_fin
  · intro hcontra
    apply hne
    simpa [processDetailedCalc] using hcontra
  · intro x hx
    rcases List.mem_map.mp hx with ⟨e, he, rfl⟩
    exact hrow e he

/-- Witness for the amended C2 on the two default rows at the default
global rates: both total costs are nonzero, hence every ROI and the mean
ROI are finite. -/
theorem outputs_finite_of_total_cost_ne_zero_witness :
    (∀ r ∈ [exampleRow, secondRow],
      total_cost exampleGlobals (coerceRow r) ≠ 0) ∧
    ([exampleRow, secondRow] ≠ ([] : List RawRow)) ∧
    ((∀ e ∈ processDetailedCalc exampleGlobals [exampleRow, secondRow],
        e.roi_percent.isFinite = true) ∧
      (avgRoi exampleGlobals [exampleRow, secondRow]).isFinite = true) := by
  have hnz : ∀ r ∈ [exampleRow, secondRow],
      total_cost exampleGlobals (coerceRow r) ≠ 0 := by
    intro r hr
    rcases List.mem_cons.mp hr with h | hr2
    · subst h
      norm_num [total_cost, gross_profit, variable_cost, fixed_cost_total,
        coerceRow, coerceCell, exampleRow, exampleGlobals]
    · rcases List.mem_cons.mp hr2 with h | h
      · subst h
        norm_num [total_cost, gross_profit, variable_cost, fixed_cost_total,
          coerceRow, coerceCell, secondRow, exampleGlobals]
      · simp at h
  exact ⟨hnz, by simp,
    outputs_finite_of_total_cost_ne_zero exampleGlobals
      [exampleRow, secondRow] hnz (by simp)⟩

/-- Counterexample to C3 as stated: on the empty session list the mean of
the empty ROI column is NaN (pandas mean of an empty series), not 0. -/
theorem empty_avg_roi_cex :
    avgRoi ⟨5 / 100, 0⟩ [] = PFloat.nan ∧ PFloat.nan ≠ PFloat.fin 0 := by
  refine ⟨?_, by simp⟩
  simp [avgRoi, pmean, processDetailedCalc]

/-- Claim C3 (amended): on the empty session list the aggregation computes
total_revenue = 0 and total_net_profit = 0, and the average ROI is the NaN
that the pandas mean of an empty column produces, not 0; no exception is
raised (the aggregation is total). -/
theorem empty_input_aggregates (g : Globals) :
    totalRevenue g [] = 0 ∧ totalNetProfit g [] = 0 ∧
    avgRoi g [] = PFloat.nan := by
  refine ⟨rfl, rfl, ?_⟩
  simp [avgRoi, pmean, processDetailedCalc]

/-- Claim C9: `process_detailed_calc` leaves its argument DataFrame
unchanged: in the object-level model, for every heap and every allocated
address of the input table, the table at that address after the call is
the table that was there before — line 63 copies the input into a fresh
object and every later write of lines 71-101 targets the copy. -/
theorem process_frame_input_unchanged (g : Globals) (h : Heap) (dfA : ℕ)
    (hlt : dfA < h.next) :
    ((process_detailed_calc_state g h dfA).2).mem dfA = h.mem dfA := by
  have hne : dfA ≠ h.next := Nat.ne_of_lt hlt
  simp only [process_detailed_calc_state]
  rw [applyCol_frame _ _ _ _ hne, applyCol_frame _ _ _ _ hne,
    applyCol_frame _ _ _ _ hne, applyCol_frame _ _ _ _ hne,
    applyCol_frame _ _ _ _ hne, applyCol_frame _ _ _ _ hne,
    foldl_applyCol_frame numeric_cols coerceColRow h.next dfA hne]
  simp [hne]

/-- Witness for C9: a one-object heap whose table lives at address 0; the
table there is unchanged by the call. -/
theorem process_frame_input_unchanged_witness :
    (0 : ℕ) < 1 ∧
    ((process_detailed_calc_state ⟨0, 0⟩ ⟨fun _ => [], 1⟩ 0).2).mem 0 =
      ([] : List PRow) :=
  ⟨by decide,
   process_frame_input_unchanged ⟨0, 0⟩ ⟨fun _ => [], 1⟩ 0 (by decide)⟩

end ProfitApp
